import Mathlib

/-!
Shallow embedding of src/simple_atm.py.

Modelling conventions:
- Python ints are Lean Int (unbounded, matching Python semantics).
- Python exceptions (ValueError) become the error branch of Except String.
- The processor-pool lock acquisition (AtmBackend.acquire_lock with its
  timeout) is summarised by a Bool oracle acquireOk: true when some lock in
  the pool was obtained within the timeout, false when acquire_lock returned
  None. Whether an acquisition was even attempted is recorded explicitly in
  the outcome, mirroring the short-circuit of amount > 0 and acquire_lock.
- The class-level side table AtmBackend.account_numbers (a dict with .get
  defaulting to 0) is a total function String to Nat.
- The global reentrant balance guard serialises every balance read/write, so
  a guarded read-modify-write runs atomically; each deposit/withdraw is
  therefore one atomic step, and a concurrent execution is an arbitrary
  sequential interleaving of these steps.
- The regex digit class of the identifier pattern matches any Unicode
  decimal digit (category Nd), not only ASCII; it is modelled by the
  explicit list of Nd code point ranges (Unicode 14.0, as shipped with
  CPython 3.11).
-/

/-- Account with its validated identifier and balance, from class Account. -/
structure Account where
  account_number : String
  balance : Int
deriving Repr, DecidableEq

/-- An ASCII decimal digit, code point between 48 and 57. This is the digit
class the spec names for identifiers; the source regex class is wider, see
isPyDigit. Python renders integers with these digits only, so the decimal
rendering lemmas below also use it. -/
def isAsciiDigit (c : Char) : Bool :=
  48 ≤ c.toNat && c.toNat ≤ 57

/-- The maximal runs of Unicode decimal digits (category Nd): the code
point ranges matched by the digit class of a Python str regex
(Unicode 14.0, as shipped with CPython 3.11). -/
def ndDigitRanges : List (Nat × Nat) :=
  [(0x30, 0x39), (0x660, 0x669), (0x6F0, 0x6F9), (0x7C0, 0x7C9),
   (0x966, 0x96F), (0x9E6, 0x9EF), (0xA66, 0xA6F), (0xAE6, 0xAEF),
   (0xB66, 0xB6F), (0xBE6, 0xBEF), (0xC66, 0xC6F), (0xCE6, 0xCEF),
   (0xD66, 0xD6F), (0xDE6, 0xDEF), (0xE50, 0xE59), (0xED0, 0xED9),
   (0xF20, 0xF29), (0x1040, 0x1049), (0x1090, 0x1099), (0x17E0, 0x17E9),
   (0x1810, 0x1819), (0x1946, 0x194F), (0x19D0, 0x19D9), (0x1A80, 0x1A89),
   (0x1A90, 0x1A99), (0x1B50, 0x1B59), (0x1BB0, 0x1BB9), (0x1C40, 0x1C49),
   (0x1C50, 0x1C59), (0xA620, 0xA629), (0xA8D0, 0xA8D9), (0xA900, 0xA909),
   (0xA9D0, 0xA9D9), (0xA9F0, 0xA9F9), (0xAA50, 0xAA59), (0xABF0, 0xABF9),
   (0xFF10, 0xFF19), (0x104A0, 0x104A9), (0x10D30, 0x10D39),
   (0x11066, 0x1106F), (0x110F0, 0x110F9), (0x11136, 0x1113F),
   (0x111D0, 0x111D9), (0x112F0, 0x112F9), (0x11450, 0x11459),
   (0x114D0, 0x114D9), (0x11650, 0x11659), (0x116C0, 0x116C9),
   (0x11730, 0x11739), (0x118E0, 0x118E9), (0x11950, 0x11959),
   (0x11C50, 0x11C59), (0x11D50, 0x11D59), (0x11DA0, 0x11DA9),
   (0x16A60, 0x16A69), (0x16AC0, 0x16AC9), (0x16B50, 0x16B59),
   (0x1D7CE, 0x1D7FF), (0x1E140, 0x1E149), (0x1E2F0, 0x1E2F9),
   (0x1E950, 0x1E959), (0x1FBF0, 0x1FBF9)]

/-- The digit class of a Python str regex: a Unicode decimal digit. -/
def isPyDigit (c : Char) : Bool :=
  ndDigitRanges.any fun r => r.1 ≤ c.toNat && c.toNat ≤ r.2

/-- Account.check_account_number: fullmatch of exactly ten characters of
the regex digit class. -/
def Account.check_account_number (s : String) : Bool :=
  s.length == 10 && s.data.all isPyDigit

/-- The Account constructor: raises ValueError for a malformed identifier,
otherwise stores the identifier and clamps the initial balance at zero. -/
def Account.init (account_number : String) (balance : Int) : Except String Account :=
  if Account.check_account_number account_number then
    Except.ok { account_number := account_number, balance := max balance 0 }
  else
    Except.error (account_number ++ " is not formatted correctly")

/-- The balance property getter (the guard only affects interleaving). -/
def Account.getBalance (a : Account) : Int :=
  a.balance

/-- The balance property setter: stores a nonnegative value, raises
ValueError on a negative one (in which case no assignment happens). -/
def Account.setBalance (a : Account) (new_amount : Int) : Except String Account :=
  if new_amount ≥ 0 then
    Except.ok { a with balance := new_amount }
  else
    Except.error "Balance cannot be negative"

/-- An ATM backend instance; the only instance state is the numeric label
stored by the constructor. All other state is class-level and threaded
explicitly through the operations. -/
structure AtmBackend where
  __number : Int
deriving Repr, DecidableEq

/-- Decimal digit characters of n, most significant first, by repeated
division by ten; fuel makes the recursion structural and any fuel at least
n gives the full digit list. -/
def natDecChars (fuel n : Nat) : List Char :=
  match fuel with
  | 0 => []
  | fuel + 1 =>
    if n < 10 then [Char.ofNat (48 + n)]
    else natDecChars fuel (n / 10) ++ [Char.ofNat (48 + n % 10)]

/-- The decimal rendering of a nonnegative integer, digit by digit
(most significant first). -/
def pyNatStr (n : Nat) : String :=
  String.mk (natDecChars (n + 1) n)

/-- The decimal rendering of a Python int: a leading minus sign for a
negative value, then the digits of the absolute value. -/
def pyIntStr (i : Int) : String :=
  if i < 0 then "-" ++ pyNatStr i.natAbs else pyNatStr i.toNat

/-- The number property: the decimal string rendering of the label,
modelling str applied to a Python int. -/
def AtmBackend.number (self : AtmBackend) : String :=
  pyIntStr self.__number

/-- AtmBackend.add_account_number: bump the side-table count for one
identifier, defaulting a missing entry to zero. -/
def AtmBackend.add_account_number (tbl : String → Nat) (account_number : String) :
    String → Nat :=
  Function.update tbl account_number (tbl account_number + 1)

/-- The full outcome of one deposit/withdraw call: the returned Bool or the
propagated exception, the resulting account and side table, and whether a
processor-pool acquisition was attempted at all. -/
structure TxOutcome where
  result : Except String Bool
  account : Account
  table : String → Nat
  acquireAttempted : Bool

/-- AtmBackend.deposit: record the touch; if the amount is positive, try for
a pool lock, and when one is obtained re-check the amount under the balance
guard and add it to the balance. The lock is released on every path; an
exception from the setter propagates. -/
def AtmBackend.deposit (_self : AtmBackend) (tbl : String → Nat) (account : Account)
    (amount : Int) (acquireOk : Bool) : TxOutcome :=
  let tbl' := AtmBackend.add_account_number tbl account.account_number
  if amount > 0 then
    if acquireOk then
      if amount > 0 then
        match account.setBalance (account.getBalance + amount) with
        | Except.ok a' =>
          { result := Except.ok true, account := a', table := tbl', acquireAttempted := true }
        | Except.error e =>
          { result := Except.error e, account := account, table := tbl', acquireAttempted := true }
      else
        { result := Except.ok false, account := account, table := tbl', acquireAttempted := true }
    else
      { result := Except.ok false, account := account, table := tbl', acquireAttempted := true }
  else
    { result := Except.ok false, account := account, table := tbl', acquireAttempted := false }

/-- AtmBackend.withdraw: record the touch; if the amount is positive, try
for a pool lock, and when one is obtained check balance at least amount
under the guard before subtracting; insufficient funds return false with no
mutation. -/
def AtmBackend.withdraw (_self : AtmBackend) (tbl : String → Nat) (account : Account)
    (amount : Int) (acquireOk : Bool) : TxOutcome :=
  let tbl' := AtmBackend.add_account_number tbl account.account_number
  if amount > 0 then
    if acquireOk then
      if account.getBalance ≥ amount then
        match account.setBalance (account.getBalance - amount) with
        | Except.ok a' =>
          { result := Except.ok true, account := a', table := tbl', acquireAttempted := true }
        | Except.error e =>
          { result := Except.error e, account := account, table := tbl', acquireAttempted := true }
      else
        { result := Except.ok false, account := account, table := tbl', acquireAttempted := true }
    else
      { result := Except.ok false, account := account, table := tbl', acquireAttempted := true }
  else
    { result := Except.ok false, account := account, table := tbl', acquireAttempted := false }

/-- The Bool a session observes from an outcome (a propagated exception
never reaches the success assignment). -/
def TxOutcome.success (o : TxOutcome) : Bool :=
  match o.result with
  | Except.ok b => b
  | Except.error _ => false

/-- One action tuple recorded by atm_session (the thread name, a scheduling
identity outside the embedding, is omitted). -/
structure SessionResult where
  atm_number : String
  account_number : String
  amount : Int
  transaction_type : String
  success : Bool
deriving Repr, DecidableEq

/-- atm_session: inside the admission semaphore, dispatch on the
transaction type, with any other type yielding success false without a
backend call; then record the action tuple. -/
def atm_session (transaction_type : String) (amount : Int) (account : Account)
    (atm : AtmBackend) (tbl : String → Nat) (acquireOk : Bool) :
    TxOutcome × SessionResult :=
  let o :=
    if transaction_type == "withdraw" then
      atm.withdraw tbl account amount acquireOk
    else if transaction_type == "deposit" then
      atm.deposit tbl account amount acquireOk
    else
      { result := Except.ok false, account := account, table := tbl,
        acquireAttempted := false }
  (o, { atm_number := atm.number, account_number := o.account.account_number,
        amount := amount, transaction_type := transaction_type,
        success := o.success })

/-- The value of a list of decimal digit characters, most significant
first, reading each character through its ASCII code. -/
def decDigitsVal (cs : List Char) : Nat :=
  cs.foldl (fun a c => 10 * a + (c.toNat - 48)) 0

/-- An independent reading of a decimal string back to an integer: an
optional leading minus sign, then digit characters. Used to state that the
rendering produced by the code is the decimal representation. -/
def parseDecInt (s : String) : Int :=
  match s.data with
  | [] => 0
  | c :: rest =>
    if c = Char.ofNat 45 then -(decDigitsVal rest : Int)
    else (decDigitsVal (c :: rest) : Int)

/-- Which backend operation a transaction request invokes. -/
inductive TxKind where
  | deposit
  | withdraw
deriving Repr, DecidableEq

/-- One transaction request: the operation, its amount, and the oracle for
whether a processor-pool lock is obtained within the timeout. -/
structure TxReq where
  kind : TxKind
  amount : Int
  acquireOk : Bool
deriving Repr, DecidableEq

/-- Apply one request through the backend. -/
def applyTx (self : AtmBackend) (tbl : String → Nat) (a : Account) (r : TxReq) :
    TxOutcome :=
  match r.kind with
  | TxKind.deposit => self.deposit tbl a r.amount r.acquireOk
  | TxKind.withdraw => self.withdraw tbl a r.amount r.acquireOk

/-- The state reached after running a batch of requests, with the log of
each request paired with the Bool it returned. -/
structure RunState where
  table : String → Nat
  account : Account
  log : List (TxReq × Bool)

/-- Run a batch of requests in order against one account. Every balance
read-modify-write happens under the single global reentrant guard, so a
concurrent execution of the granted transactions is equivalent to some
sequential ordering of them; quantifying over all request lists covers
every such ordering. -/
def runTxs (self : AtmBackend) : List TxReq → (String → Nat) → Account → RunState
  | [], tbl, a => { table := tbl, account := a, log := [] }
  | r :: rs, tbl, a =>
    let o := applyTx self tbl a r
    let s := runTxs self rs o.table o.account
    { table := s.table, account := s.account, log := (r, o.success) :: s.log }

/-- Total amount of the successful transactions of one kind in a log. -/
def sumSuccess (k : TxKind) (log : List (TxReq × Bool)) : Int :=
  log.foldr (fun p acc => if p.2 = true ∧ p.1.kind = k then p.1.amount + acc else acc) 0

/-! ## Characterisation lemmas -/

/-- On a nonnegative balance, deposit either succeeds (positive amount and a
lock obtained), adding the amount, or returns false leaving the account
untouched; the side table is always bumped and acquisition is attempted
exactly when the amount is positive. -/
lemma deposit_eq (self : AtmBackend) (tbl : String → Nat) (a : Account)
    (amount : Int) (ok : Bool) (h : 0 ≤ a.balance) :
    AtmBackend.deposit self tbl a amount ok =
      if 0 < amount ∧ ok = true then
        { result := Except.ok true,
          account := { account_number := a.account_number, balance := a.balance + amount },
          table := AtmBackend.add_account_number tbl a.account_number,
          acquireAttempted := true }
      else
        { result := Except.ok false, account := a,
          table := AtmBackend.add_account_number tbl a.account_number,
          acquireAttempted := decide (0 < amount) } := by
  unfold AtmBackend.deposit
  by_cases h1 : 0 < amount
  · cases ok with
    | false => simp [h1]
    | true =>
      have h2 : 0 ≤ a.balance + amount := by omega
      simp [h1, Account.setBalance, Account.getBalance, h2]
  · simp [h1]

/-- Withdraw either succeeds (positive amount, a lock obtained, sufficient
funds), subtracting the amount, or returns false leaving the account
untouched; the side table is always bumped and acquisition is attempted
exactly when the amount is positive. -/
lemma withdraw_eq (self : AtmBackend) (tbl : String → Nat) (a : Account)
    (amount : Int) (ok : Bool) :
    AtmBackend.withdraw self tbl a amount ok =
      if 0 < amount ∧ ok = true ∧ amount ≤ a.balance then
        { result := Except.ok true,
          account := { account_number := a.account_number, balance := a.balance - amount },
          table := AtmBackend.add_account_number tbl a.account_number,
          acquireAttempted := true }
      else
        { result := Except.ok false, account := a,
          table := AtmBackend.add_account_number tbl a.account_number,
          acquireAttempted := decide (0 < amount) } := by
  unfold AtmBackend.withdraw
  by_cases h1 : 0 < amount
  · cases ok with
    | false => simp [h1]
    | true =>
      by_cases h3 : amount ≤ a.balance
      · have h4 : a.getBalance ≥ amount := by
          simp only [Account.getBalance]; omega
        have h2 : 0 ≤ a.balance - amount := by omega
        simp [h1, h3, h4, Account.setBalance, Account.getBalance, h2]
      · have h4 : ¬ (a.getBalance ≥ amount) := by
          simp only [Account.getBalance]; omega
        simp [h1, h3, h4]
  · simp [h1]

/-! ## Claim theorems -/

/-- C2: the balance is nonnegative at every observable point: the
constructor establishes it and getBalance, setBalance, deposit and withdraw
preserve it. -/
theorem balance_nonneg_invariant :
    (∀ (s : String) (b : Int) (a : Account),
      Account.init s b = Except.ok a → 0 ≤ a.balance) ∧
    (∀ (a : Account) (v : Int) (a' : Account),
      Account.setBalance a v = Except.ok a' → 0 ≤ a'.balance) ∧
    (∀ a : Account, 0 ≤ a.balance → 0 ≤ a.getBalance) ∧
    (∀ (self : AtmBackend) (tbl : String → Nat) (a : Account) (amount : Int) (ok : Bool),
      0 ≤ a.balance → 0 ≤ (AtmBackend.deposit self tbl a amount ok).account.balance) ∧
    (∀ (self : AtmBackend) (tbl : String → Nat) (a : Account) (amount : Int) (ok : Bool),
      0 ≤ a.balance → 0 ≤ (AtmBackend.withdraw self tbl a amount ok).account.balance) := by
  refine ⟨?_, ?_, ?_, ?_, ?_⟩
  · intro s b a ha
    rw [Account.init] at ha
    by_cases hb : Account.check_account_number s = true
    · rw [if_pos hb] at ha
      simp only [Except.ok.injEq] at ha
      subst ha
      simp [le_max_right]
    · rw [if_neg hb] at ha
      exact absurd ha (by simp)
  · intro a v a' ha
    rw [Account.setBalance] at ha
    by_cases hv : v ≥ 0
    · rw [if_pos hv] at ha
      simp only [Except.ok.injEq] at ha
      subst ha
      exact hv
    · rw [if_neg hv] at ha
      exact absurd ha (by simp)
  · intro a h
    exact h
  · intro self tbl a amount ok h
    rw [deposit_eq self tbl a amount ok h]
    split_ifs with hc
    · obtain ⟨h1, -⟩ := hc
      show 0 ≤ a.balance + amount
      omega
    · exact h
  · intro self tbl a amount ok h
    rw [withdraw_eq self tbl a amount ok]
    split_ifs with hc
    · obtain ⟨h1, -, h3⟩ := hc
      show 0 ≤ a.balance - amount
      omega
    · exact h

/-- Witness for C2 at a concrete account, amount and oracle. -/
theorem balance_nonneg_invariant_witness :
    0 ≤ (AtmBackend.deposit ⟨1⟩ (fun _ => 0) ⟨"1234567890", 7⟩ 5 true).account.balance ∧
    0 ≤ (AtmBackend.withdraw ⟨1⟩ (fun _ => 0) ⟨"1234567890", 7⟩ 5 true).account.balance :=
  ⟨balance_nonneg_invariant.2.2.2.1 ⟨1⟩ (fun _ => 0) ⟨"1234567890", 7⟩ 5 true (by decide),
   balance_nonneg_invariant.2.2.2.2 ⟨1⟩ (fun _ => 0) ⟨"1234567890", 7⟩ 5 true (by decide)⟩

/-- Counterexample to C3 as stated: the ten Arabic-Indic digits U+0660 to
U+0669 are matched by the regex digit class, so construction succeeds on
them, although the identifier is not made of ASCII digits (its first
character is not one). -/
theorem accountInit_ascii_counterexample :
    Account.init "٠١٢٣٤٥٦٧٨٩" 0
      = Except.ok { account_number := "٠١٢٣٤٥٦٧٨٩", balance := 0 } ∧
    isAsciiDigit '٠' = false :=
  ⟨rfl, rfl⟩

/-- C3 (amended): construction fails exactly when the identifier is not
ten characters of the regex digit class (Unicode decimal digits, which
include non-ASCII ones), and a successful construction stores the
identifier and the initial balance clamped at zero. -/
theorem accountInit_spec (s : String) (b : Int) :
    ((∃ e, Account.init s b = Except.error e) ↔
      ¬ (s.length = 10 ∧ ∀ c ∈ s.data,
        ∃ r ∈ ndDigitRanges, r.1 ≤ c.toNat ∧ c.toNat ≤ r.2)) ∧
    (∀ a, Account.init s b = Except.ok a →
      a.account_number = s ∧ a.balance = max b 0) := by
  have hiff : (Account.check_account_number s = true) ↔
      (s.length = 10 ∧ ∀ c ∈ s.data,
        ∃ r ∈ ndDigitRanges, r.1 ≤ c.toNat ∧ c.toNat ≤ r.2) := by
    simp [Account.check_account_number, isPyDigit, List.all_eq_true,
      List.any_eq_true]
  constructor
  · constructor
    · rintro ⟨e, he⟩ hprop
      rw [Account.init, if_pos (hiff.mpr hprop)] at he
      exact absurd he (by simp)
    · intro hprop
      rw [Account.init, if_neg (fun hb => hprop (hiff.mp hb))]
      exact ⟨_, rfl⟩
  · intro a ha
    rw [Account.init] at ha
    by_cases hb : Account.check_account_number s = true
    · rw [if_pos hb] at ha
      simp only [Except.ok.injEq] at ha
      subst ha
      exact ⟨rfl, rfl⟩
    · rw [if_neg hb] at ha
      exact absurd ha (by simp)

/-- Witness for C3: a valid ten-digit identifier with a negative initial
balance, and a five-character identifier that must be rejected. -/
theorem accountInit_spec_witness :
    ((⟨"1234567890", 0⟩ : Account).account_number = "1234567890" ∧
      (⟨"1234567890", 0⟩ : Account).balance = max (-5 : Int) 0) ∧
    ¬ ("12345".length = 10 ∧ ∀ c ∈ "12345".data,
      ∃ r ∈ ndDigitRanges, r.1 ≤ c.toNat ∧ c.toNat ≤ r.2) :=
  ⟨(accountInit_spec "1234567890" (-5)).2 ⟨"1234567890", 0⟩ rfl,
   (accountInit_spec "12345" 0).1.mp ⟨"12345 is not formatted correctly", rfl⟩⟩

/-- C4: a withdrawal of a positive amount exceeding the balance returns
false and leaves the account unchanged. -/
theorem withdraw_insufficient_noop (self : AtmBackend) (tbl : String → Nat)
    (a : Account) (amount : Int) (ok : Bool)
    (_hpos : 0 < amount) (hgt : a.balance < amount) :
    (AtmBackend.withdraw self tbl a amount ok).result = Except.ok false ∧
    (AtmBackend.withdraw self tbl a amount ok).account = a := by
  rw [withdraw_eq]
  have hc : ¬ (0 < amount ∧ ok = true ∧ amount ≤ a.balance) := by
    rintro ⟨-, -, h3⟩
    omega
  rw [if_neg hc]
  exact ⟨rfl, rfl⟩

/-- Witness for C4: withdrawing 20 from a balance of 10. -/
theorem withdraw_insufficient_noop_witness :
    (AtmBackend.withdraw ⟨1⟩ (fun _ => 0) ⟨"1234567890", 10⟩ 20 true).result
        = Except.ok false ∧
    (AtmBackend.withdraw ⟨1⟩ (fun _ => 0) ⟨"1234567890", 10⟩ 20 true).account
        = ⟨"1234567890", 10⟩ :=
  withdraw_insufficient_noop ⟨1⟩ (fun _ => 0) ⟨"1234567890", 10⟩ 20 true
    (by decide) (by decide)

/-- C5: a nonpositive amount makes both operations return false without any
acquisition attempt and without touching the balance. -/
theorem nonpositive_amount_rejected (self : AtmBackend) (tbl : String → Nat)
    (a : Account) (amount : Int) (ok : Bool) (h : amount ≤ 0) :
    (AtmBackend.deposit self tbl a amount ok).result = Except.ok false ∧
    (AtmBackend.deposit self tbl a amount ok).acquireAttempted = false ∧
    (AtmBackend.deposit self tbl a amount ok).account = a ∧
    (AtmBackend.withdraw self tbl a amount ok).result = Except.ok false ∧
    (AtmBackend.withdraw self tbl a amount ok).acquireAttempted = false ∧
    (AtmBackend.withdraw self tbl a amount ok).account = a := by
  have h1 : ¬ (amount > 0) := by omega
  unfold AtmBackend.deposit AtmBackend.withdraw
  simp [h1]

/-- Witness for C5: a zero amount with an available lock. -/
theorem nonpositive_amount_rejected_witness :
    (AtmBackend.deposit ⟨1⟩ (fun _ => 0) ⟨"1234567890", 10⟩ 0 true).result
        = Except.ok false ∧
    (AtmBackend.deposit ⟨1⟩ (fun _ => 0) ⟨"1234567890", 10⟩ 0 true).acquireAttempted
        = false ∧
    (AtmBackend.deposit ⟨1⟩ (fun _ => 0) ⟨"1234567890", 10⟩ 0 true).account
        = ⟨"1234567890", 10⟩ ∧
    (AtmBackend.withdraw ⟨1⟩ (fun _ => 0) ⟨"1234567890", 10⟩ 0 true).result
        = Except.ok false ∧
    (AtmBackend.withdraw ⟨1⟩ (fun _ => 0) ⟨"1234567890", 10⟩ 0 true).acquireAttempted
        = false ∧
    (AtmBackend.withdraw ⟨1⟩ (fun _ => 0) ⟨"1234567890", 10⟩ 0 true).account
        = ⟨"1234567890", 10⟩ :=
  nonpositive_amount_rejected ⟨1⟩ (fun _ => 0) ⟨"1234567890", 10⟩ 0 true (by decide)

/-- C6: the setter rejects a negative value with the NegativeBalance error
(so no assignment happens), and stores a nonnegative value exactly. -/
theorem setBalance_spec (a : Account) (v : Int) :
    (v < 0 → Account.setBalance a v = Except.error "Balance cannot be negative") ∧
    (0 ≤ v → Account.setBalance a v =
      Except.ok { account_number := a.account_number, balance := v }) := by
  constructor
  · intro h
    rw [Account.setBalance, if_neg (by omega)]
  · intro h
    rw [Account.setBalance, if_pos (by omega)]

/-- Witness for C6 at a negative and a nonnegative value. -/
theorem setBalance_spec_witness :
    Account.setBalance ⟨"1234567890", 5⟩ (-1) = Except.error "Balance cannot be negative" ∧
    Account.setBalance ⟨"1234567890", 5⟩ 7 = Except.ok ⟨"1234567890", 7⟩ :=
  ⟨(setBalance_spec ⟨"1234567890", 5⟩ (-1)).1 (by decide),
   (setBalance_spec ⟨"1234567890", 5⟩ 7).2 (by decide)⟩

/-- C7: every deposit or withdraw call bumps the side-table count of the
target identifier by exactly one, whatever the amount, the lock oracle and
the outcome, and leaves every other identifier's count unchanged. -/
theorem touch_count_incremented (self : AtmBackend) (tbl : String → Nat)
    (a : Account) (amount : Int) (ok : Bool) :
    (AtmBackend.deposit self tbl a amount ok).table a.account_number
        = tbl a.account_number + 1 ∧
    (AtmBackend.withdraw self tbl a amount ok).table a.account_number
        = tbl a.account_number + 1 ∧
    (∀ k, k ≠ a.account_number →
      (AtmBackend.deposit self tbl a amount ok).table k = tbl k ∧
      (AtmBackend.withdraw self tbl a amount ok).table k = tbl k) := by
  have hd : (AtmBackend.deposit self tbl a amount ok).table
      = AtmBackend.add_account_number tbl a.account_number := by
    unfold AtmBackend.deposit
    repeat' split
    all_goals rfl
  have hw : (AtmBackend.withdraw self tbl a amount ok).table
      = AtmBackend.add_account_number tbl a.account_number := by
    unfold AtmBackend.withdraw
    repeat' split
    all_goals rfl
  refine ⟨?_, ?_, ?_⟩
  · rw [hd]
    simp [AtmBackend.add_account_number]
  · rw [hw]
    simp [AtmBackend.add_account_number]
  · intro k hk
    rw [hd, hw]
    simp [AtmBackend.add_account_number, Function.update_noteq hk]

/-- Witness for C7: a failing deposit still bumps the count, and an
untouched identifier keeps its count. -/
theorem touch_count_incremented_witness :
    (AtmBackend.deposit ⟨1⟩ (fun _ => 0) ⟨"1234567890", 3⟩ (-4) false).table "1234567890"
        = 1 ∧
    (AtmBackend.withdraw ⟨1⟩ (fun _ => 0) ⟨"1234567890", 3⟩ (-4) false).table "0000000000"
        = 0 :=
  ⟨(touch_count_incremented ⟨1⟩ (fun _ => 0) ⟨"1234567890", 3⟩ (-4) false).1,
   ((touch_count_incremented ⟨1⟩ (fun _ => 0) ⟨"1234567890", 3⟩ (-4) false).2.2
      "0000000000" (by decide)).2⟩

/-- C8: a session with an unknown transaction type reports failure and
calls no backend operation: the outcome is false with account and side
table untouched. -/
theorem unknown_kind_untouched (transaction_type : String) (amount : Int)
    (account : Account) (atm : AtmBackend) (tbl : String → Nat) (ok : Bool)
    (h1 : transaction_type ≠ "withdraw") (h2 : transaction_type ≠ "deposit") :
    (atm_session transaction_type amount account atm tbl ok).2.success = false ∧
    (atm_session transaction_type amount account atm tbl ok).1.result = Except.ok false ∧
    (atm_session transaction_type amount account atm tbl ok).1.account = account ∧
    (atm_session transaction_type amount account atm tbl ok).1.table = tbl := by
  unfold atm_session
  simp [h1, h2, TxOutcome.success]

/-- Witness for C8 with the transaction type transfer. -/
theorem unknown_kind_untouched_witness :
    (atm_session "transfer" 5 ⟨"1234567890", 7⟩ ⟨1⟩ (fun _ => 0) true).2.success = false ∧
    (atm_session "transfer" 5 ⟨"1234567890", 7⟩ ⟨1⟩ (fun _ => 0) true).1.result
        = Except.ok false ∧
    (atm_session "transfer" 5 ⟨"1234567890", 7⟩ ⟨1⟩ (fun _ => 0) true).1.account
        = ⟨"1234567890", 7⟩ ∧
    (atm_session "transfer" 5 ⟨"1234567890", 7⟩ ⟨1⟩ (fun _ => 0) true).1.table
        = (fun _ => 0) :=
  unknown_kind_untouched "transfer" 5 ⟨"1234567890", 7⟩ ⟨1⟩ (fun _ => 0) true
    (by decide) (by decide)

/-- C9: starting from a nonnegative balance, neither deposit nor withdraw
can ever take the setter's negative-value error branch. -/
theorem setter_error_unreachable (self : AtmBackend) (tbl : String → Nat)
    (a : Account) (amount : Int) (ok : Bool) (h : 0 ≤ a.balance) :
    (∀ e, (AtmBackend.deposit self tbl a amount ok).result ≠ Except.error e) ∧
    (∀ e, (AtmBackend.withdraw self tbl a amount ok).result ≠ Except.error e) := by
  constructor
  · intro e
    rw [deposit_eq self tbl a amount ok h]
    split_ifs <;> simp
  · intro e
    rw [withdraw_eq self tbl a amount ok]
    split_ifs <;> simp

/-- Witness for C9 at a concrete state. -/
theorem setter_error_unreachable_witness :
    (AtmBackend.deposit ⟨1⟩ (fun _ => 0) ⟨"1234567890", 7⟩ 5 true).result
        ≠ Except.error "Balance cannot be negative" ∧
    (AtmBackend.withdraw ⟨1⟩ (fun _ => 0) ⟨"1234567890", 7⟩ 5 true).result
        ≠ Except.error "Balance cannot be negative" :=
  ⟨(setter_error_unreachable ⟨1⟩ (fun _ => 0) ⟨"1234567890", 7⟩ 5 true (by decide)).1
      "Balance cannot be negative",
   (setter_error_unreachable ⟨1⟩ (fun _ => 0) ⟨"1234567890", 7⟩ 5 true (by decide)).2
      "Balance cannot be negative"⟩

/-! ## Batch-run accounting (for the concurrency claim) -/

/-- Unfolding the successful-amount sum over a log entry. -/
lemma sumSuccess_cons (k : TxKind) (r : TxReq) (b : Bool) (log : List (TxReq × Bool)) :
    sumSuccess k ((r, b) :: log) =
      (if b = true ∧ r.kind = k then r.amount else 0) + sumSuccess k log := by
  simp only [sumSuccess, List.foldr]
  split_ifs with h
  · omega
  · omega

/-- One granted transaction moves the balance by its amount in the
direction of its kind, and a denied or failed one leaves it unchanged;
nonnegativity is preserved. -/
lemma applyTx_step (self : AtmBackend) (tbl : String → Nat) (a : Account) (r : TxReq)
    (h : 0 ≤ a.balance) :
    0 ≤ (applyTx self tbl a r).account.balance ∧
    (applyTx self tbl a r).account.balance =
      a.balance
        + (if (applyTx self tbl a r).success = true ∧ r.kind = TxKind.deposit
            then r.amount else 0)
        - (if (applyTx self tbl a r).success = true ∧ r.kind = TxKind.withdraw
            then r.amount else 0) := by
  obtain ⟨k, amount, ok⟩ := r
  cases k with
  | deposit =>
    simp only [applyTx]
    rw [deposit_eq self tbl a amount ok h]
    by_cases hc : 0 < amount ∧ ok = true
    · rw [if_pos hc]
      obtain ⟨h1, -⟩ := hc
      simp [TxOutcome.success]
      omega
    · rw [if_neg hc]
      simp [TxOutcome.success, h]
  | withdraw =>
    simp only [applyTx]
    rw [withdraw_eq self tbl a amount ok]
    by_cases hc : 0 < amount ∧ ok = true ∧ amount ≤ a.balance
    · rw [if_pos hc]
      obtain ⟨h1, -, h3⟩ := hc
      simp [TxOutcome.success]
      omega
    · rw [if_neg hc]
      simp [TxOutcome.success, h]

/-- C1: starting from a valid (nonnegative) balance, any sequence of
deposit/withdraw requests run through the backend ends with balance equal
to the initial balance plus the successful deposit amounts minus the
successful withdrawal amounts, never negative. Balance updates are
read-modify-writes under the single global guard, so a concurrent execution
coincides with some sequential ordering of the granted transactions;
quantifying over every request list covers every such ordering. -/
theorem concurrent_balance_accounting (self : AtmBackend) (reqs : List TxReq)
    (tbl : String → Nat) (a : Account) (h : 0 ≤ a.balance) :
    (runTxs self reqs tbl a).account.balance =
      a.balance
        + sumSuccess TxKind.deposit (runTxs self reqs tbl a).log
        - sumSuccess TxKind.withdraw (runTxs self reqs tbl a).log ∧
    0 ≤ (runTxs self reqs tbl a).account.balance := by
  induction reqs generalizing tbl a with
  | nil =>
    constructor
    · simp [runTxs, sumSuccess]
    · simpa [runTxs] using h
  | cons r rs ih =>
    have hstep := applyTx_step self tbl a r h
    have ih' := ih (applyTx self tbl a r).table (applyTx self tbl a r).account hstep.1
    simp only [runTxs]
    rw [sumSuccess_cons, sumSuccess_cons]
    omega

/-- Witness for C1: the spec scenario, balance 1000 with withdrawals of
200, 300 and 100 and deposits of 500 and 400, all granted. -/
theorem concurrent_balance_accounting_witness :
    (runTxs ⟨1⟩
        [⟨TxKind.withdraw, 200, true⟩, ⟨TxKind.deposit, 500, true⟩,
         ⟨TxKind.withdraw, 300, true⟩, ⟨TxKind.withdraw, 100, true⟩,
         ⟨TxKind.deposit, 400, true⟩]
        (fun _ => 0) ⟨"1234567890", 1000⟩).account.balance =
      1000
        + sumSuccess TxKind.deposit
            (runTxs ⟨1⟩
              [⟨TxKind.withdraw, 200, true⟩, ⟨TxKind.deposit, 500, true⟩,
               ⟨TxKind.withdraw, 300, true⟩, ⟨TxKind.withdraw, 100, true⟩,
               ⟨TxKind.deposit, 400, true⟩]
              (fun _ => 0) ⟨"1234567890", 1000⟩).log
        - sumSuccess TxKind.withdraw
            (runTxs ⟨1⟩
              [⟨TxKind.withdraw, 200, true⟩, ⟨TxKind.deposit, 500, true⟩,
               ⟨TxKind.withdraw, 300, true⟩, ⟨TxKind.withdraw, 100, true⟩,
               ⟨TxKind.deposit, 400, true⟩]
              (fun _ => 0) ⟨"1234567890", 1000⟩).log ∧
    0 ≤ (runTxs ⟨1⟩
        [⟨TxKind.withdraw, 200, true⟩, ⟨TxKind.deposit, 500, true⟩,
         ⟨TxKind.withdraw, 300, true⟩, ⟨TxKind.withdraw, 100, true⟩,
         ⟨TxKind.deposit, 400, true⟩]
        (fun _ => 0) ⟨"1234567890", 1000⟩).account.balance :=
  concurrent_balance_accounting ⟨1⟩
    [⟨TxKind.withdraw, 200, true⟩, ⟨TxKind.deposit, 500, true⟩,
     ⟨TxKind.withdraw, 300, true⟩, ⟨TxKind.withdraw, 100, true⟩,
     ⟨TxKind.deposit, 400, true⟩]
    (fun _ => 0) ⟨"1234567890", 1000⟩ (by decide)

/-! ## Decimal rendering lemmas (for the backend number property) -/

/-- The ASCII code of a digit character built from a digit below ten. -/
lemma charOfNat_digit_toNat (d : Nat) (hd : d < 10) :
    (Char.ofNat (48 + d)).toNat = 48 + d := by
  interval_cases d <;> decide

/-- Reading one more trailing digit multiplies the value by ten. -/
lemma decDigitsVal_append_digit (l : List Char) (c : Char) :
    decDigitsVal (l ++ [c]) = 10 * decDigitsVal l + (c.toNat - 48) := by
  simp [decDigitsVal, List.foldl_append]

/-- With enough fuel, reading the rendered digits back gives the number. -/
lemma natDecChars_val (fuel n : Nat) (h : n ≤ fuel) :
    decDigitsVal (natDecChars fuel n) = n := by
  induction fuel generalizing n with
  | zero =>
    have hn : n = 0 := by omega
    subst hn
    rfl
  | succ fuel ih =>
    rw [natDecChars]
    by_cases h10 : n < 10
    · rw [if_pos h10]
      show decDigitsVal ([] ++ [Char.ofNat (48 + n)]) = n
      rw [decDigitsVal_append_digit, charOfNat_digit_toNat n h10]
      simp only [decDigitsVal, List.foldl_nil]
      omega
    · rw [if_neg h10]
      have hdiv : n / 10 ≤ fuel := by
        have := Nat.div_lt_self (by omega : 0 < n) (by omega : 1 < 10)
        omega
      rw [decDigitsVal_append_digit, ih (n / 10) hdiv,
        charOfNat_digit_toNat (n % 10) (Nat.mod_lt n (by omega))]
      omega

/-- Every rendered character is an ASCII digit. -/
lemma natDecChars_digits (fuel n : Nat) :
    (natDecChars fuel n).all isAsciiDigit = true := by
  induction fuel generalizing n with
  | zero => rfl
  | succ fuel ih =>
    rw [natDecChars]
    by_cases h10 : n < 10
    · rw [if_pos h10]
      have hc := charOfNat_digit_toNat n h10
      simp [isAsciiDigit, hc]
      omega
    · rw [if_neg h10]
      have hc := charOfNat_digit_toNat (n % 10) (Nat.mod_lt n (by omega))
      simp only [List.all_append, ih (n / 10), Bool.true_and]
      simp [isAsciiDigit, hc]
      omega

/-- The rendering of a number is never the empty character list. -/
lemma natDecChars_ne_nil (fuel n : Nat) : natDecChars (fuel + 1) n ≠ [] := by
  rw [natDecChars]
  split_ifs <;> simp

/-- Parsing a string whose characters start with the minus sign. -/
lemma parseDecInt_of_neg_data (s : String) (cs : List Char)
    (h : s.data = Char.ofNat 45 :: cs) :
    parseDecInt s = -(decDigitsVal cs : Int) := by
  rw [parseDecInt, h]
  simp

/-- Parsing a string whose first character is not the minus sign. -/
lemma parseDecInt_of_digit_data (s : String) (c : Char) (cs : List Char)
    (h : s.data = c :: cs) (hc : c ≠ Char.ofNat 45) :
    parseDecInt s = (decDigitsVal (c :: cs) : Int) := by
  rw [parseDecInt, h]
  simp [hc]

/-- C10: the number property of a backend built from n is the decimal
string representation of n: parsing it back as a signed decimal string
yields n, and it consists of a minus sign exactly when n is negative
followed by the ASCII digits of the absolute value of n. -/
theorem number_is_decimal_repr (n : Int) :
    parseDecInt (AtmBackend.number { __number := n }) = n ∧
    (AtmBackend.number { __number := n }).data
      = (if n < 0 then [Char.ofNat 45] else []) ++ natDecChars (n.natAbs + 1) n.natAbs ∧
    (natDecChars (n.natAbs + 1) n.natAbs).all isAsciiDigit = true := by
  have habs : (natDecChars (n.natAbs + 1) n.natAbs).all isAsciiDigit = true :=
    natDecChars_digits (n.natAbs + 1) n.natAbs
  have hval : decDigitsVal (natDecChars (n.natAbs + 1) n.natAbs) = n.natAbs :=
    natDecChars_val (n.natAbs + 1) n.natAbs (by omega)
  by_cases hn : n < 0
  · have hdata : (AtmBackend.number { __number := n }).data
        = Char.ofNat 45 :: natDecChars (n.natAbs + 1) n.natAbs := by
      show (pyIntStr n).data = _
      rw [pyIntStr, if_pos hn]
      show ("-" ++ pyNatStr n.natAbs).data = _
      rw [String.data_append]
      rfl
    refine ⟨?_, ?_, habs⟩
    · rw [parseDecInt_of_neg_data _ _ hdata, hval]
      omega
    · rw [hdata, if_pos hn]
      rfl
  · have habs2 : n.natAbs = n.toNat := by omega
    have hdata : (AtmBackend.number { __number := n }).data
        = natDecChars (n.natAbs + 1) n.natAbs := by
      show (pyIntStr n).data = _
      rw [pyIntStr, if_neg hn, habs2]
      rfl
    obtain ⟨c, rest, hcons⟩ :
        ∃ c rest, natDecChars (n.natAbs + 1) n.natAbs = c :: rest := by
      cases hL : natDecChars (n.natAbs + 1) n.natAbs with
      | nil => exact absurd hL (natDecChars_ne_nil _ _)
      | cons c rest => exact ⟨c, rest, rfl⟩
    have hcdig : isAsciiDigit c = true := by
      have hall := habs
      rw [hcons] at hall
      simp only [List.all_cons, Bool.and_eq_true] at hall
      exact hall.1
    have hcne : c ≠ Char.ofNat 45 := by
      intro hc
      subst hc
      simp [isAsciiDigit] at hcdig
    refine ⟨?_, ?_, habs⟩
    · rw [parseDecInt_of_digit_data _ c rest (by rw [hdata, hcons]) hcne,
        ← hcons, hval]
      omega
    · rw [hdata, if_neg hn]
      rfl
